import Mathlib

/-!
Shallow embedding of the bulk force-logout engine
(forceLogoutUsers.js, server.js) and of the bounded worker pool it uses.

Remote identity-service behaviour is an oracle (Env): per user id it fixes
the result of each updateUser attempt and of the revokeRefreshTokens call.
The run is deterministic given the oracle, so counters and per-user call
traces are plain functions of the inputs.
-/

namespace FirebaseLogout

/-- A user record as returned by a listUsers page: uid, optional email and
the current disabled flag of the account. -/
structure UserRecord where
  uid : String
  email : Option String
  disabled : Bool
deriving DecidableEq, Repr

/-- Oracle for the remote identity service: result of the i-th
updateUser(uid, \x7bdisabled\x7d) attempt, and result of
revokeRefreshTokens(uid). Errors carry the message string. -/
structure Env where
  update : String → Bool → Nat → Except String Unit
  revoke : String → Except String Unit

/-- Observable behaviour of one robustUpdateUser invocation: final result,
number of updateUser attempts made, and the backoff delays (ms) slept
between attempts. -/
structure RetryTrace where
  result : Except String Unit
  attempts : Nat
  delays : List Nat
deriving Repr

/-- Loop body of robustUpdateUser: attempt index i of the given retries,
mirroring the for-loop in forceLogoutUsers.js lines 134-147. On failure of
a non-final attempt it sleeps 500 * 2 ^ i ms and retries; the error of the
final attempt is rethrown unchanged. -/
def robustUpdateUserAux (op : Nat → Except String Unit) (retries : Nat) :
    Nat → Nat → RetryTrace
  | _, 0 => ⟨.ok (), 0, []⟩
  | i, remaining + 1 =>
    match op i with
    | .ok _ => ⟨.ok (), 1, []⟩
    | .error e =>
      if i = retries - 1 then ⟨.error e, 1, []⟩
      else
        let rest := robustUpdateUserAux op retries (i + 1) remaining
        ⟨rest.result, rest.attempts + 1, 500 * 2 ^ i :: rest.delays⟩

/-- robustUpdateUser(uid, properties, retries): the op argument is the
oracle for the successive updateUser attempts. The loop counter i starts
at 0 and runs while i < retries, so retries iterations remain at entry. -/
def robustUpdateUser (op : Nat → Except String Unit) (retries : Nat) :
    RetryTrace :=
  robustUpdateUserAux op retries 0 retries

/-- A remote call issued for a user: revokeRefreshTokens or
updateUser with a disabled flag. -/
inductive RemoteCall where
  | revoke (uid : String)
  | update (uid : String) (disabled : Bool)
deriving DecidableEq, Repr

/-- Per-user outcome as returned by the pool task in
forceLogoutUsers.js lines 44-95. -/
inductive Outcome where
  | success (uid : String)
  | failed (uid : String) (email : Option String) (msg : String)
  | skipped (uid : String)
deriving DecidableEq, Repr

/-- What one pool task produces for one user: its outcome, the ordered list
of remote calls it issued, and the disabled flag of the account when the
task ends (given the flag it had when the task started). -/
structure UserResult where
  outcome : Outcome
  calls : List RemoteCall
  finalDisabled : Bool
deriving DecidableEq, Repr

/-- The body of the limit(...) task for one user record
(forceLogoutUsers.js lines 45-95): skip excluded users; in immediate mode
run disable (retried), revoke, re-enable (retried), any throw landing in
the catch that records a failed outcome; otherwise a single revoke.
A successful updateUser attempt sets the disabled flag to its argument;
failed attempts leave it unchanged. -/
def processUser (env : Env) (excludedUserIds : List String)
    (immediateLogout : Bool) (u : UserRecord) : UserResult :=
  if u.uid ∈ excludedUserIds then
    ⟨.skipped u.uid, [], u.disabled⟩
  else if immediateLogout then
    let t1 := robustUpdateUser (env.update u.uid true) 3
    let calls1 := List.replicate t1.attempts (RemoteCall.update u.uid true)
    match t1.result with
    | .error e => ⟨.failed u.uid u.email e, calls1, u.disabled⟩
    | .ok _ =>
      match env.revoke u.uid with
      | .error e =>
        ⟨.failed u.uid u.email e, calls1 ++ [RemoteCall.revoke u.uid], true⟩
      | .ok _ =>
        let t2 := robustUpdateUser (env.update u.uid false) 3
        let calls2 :=
          List.replicate t2.attempts (RemoteCall.update u.uid false)
        match t2.result with
        | .error e =>
          ⟨.failed u.uid u.email e,
            calls1 ++ RemoteCall.revoke u.uid :: calls2, true⟩
        | .ok _ =>
          ⟨.success u.uid,
            calls1 ++ RemoteCall.revoke u.uid :: calls2, false⟩
  else
    match env.revoke u.uid with
    | .ok _ => ⟨.success u.uid, [RemoteCall.revoke u.uid], u.disabled⟩
    | .error e =>
      ⟨.failed u.uid u.email e, [RemoteCall.revoke u.uid], u.disabled⟩

/-- The sequence of listUsers pages a run sees: each fetch either yields the
page of user records or throws with a message. -/
abbrev Pages := List (Except String (List UserRecord))

/-- All users returned across the pages, or the first fetch error (the
do-while loop of forceLogoutUsers.js lines 37-104 stops at the throw). -/
def collectUsers : Pages → Except String (List UserRecord)
  | [] => .ok []
  | .error e :: _ => .error e
  | .ok us :: rest =>
    match collectUsers rest with
    | .error e => .error e
    | .ok more => .ok (us ++ more)

/-- Users submitted to the worker pool: every user of every page fetched
before the first fetch error — the map over listUsersResult.users at line
44 submits each user of the page, excluded or not. -/
def submittedUsers : Pages → List UserRecord
  | [] => []
  | .error _ :: _ => []
  | .ok us :: rest => us ++ submittedUsers rest

/-- The final report of the run: counters and the ordered error list. -/
structure RunReport where
  success : Nat
  failed : Nat
  skipped : Nat
  total : Nat
  errors : List (String × Option String × String)
deriving DecidableEq, Repr

/-- Counter updates performed by one finishing task: totalProcessed is
always incremented, then exactly one of the three counters, and a failed
outcome appends its error record. -/
def recordOutcome (r : RunReport) (o : Outcome) : RunReport :=
  match o with
  | .success _ => { r with success := r.success + 1, total := r.total + 1 }
  | .skipped _ => { r with skipped := r.skipped + 1, total := r.total + 1 }
  | .failed uid email msg =>
    { r with failed := r.failed + 1, total := r.total + 1,
             errors := r.errors ++ [(uid, email, msg)] }

/-- Aggregation of all task outcomes into the returned report. -/
def aggregate (os : List Outcome) : RunReport :=
  os.foldl recordOutcome ⟨0, 0, 0, 0, []⟩

/-- The outcome each submitted user ends with: one task per user. -/
def runOutcomes (env : Env) (excludedUserIds : List String)
    (immediateLogout : Bool) (users : List UserRecord) : List Outcome :=
  users.map fun u => (processUser env excludedUserIds immediateLogout u).outcome

/-- forceLogoutAllUsers(excludedUserIds, immediateLogout): pages through
the user pool, runs one task per user, and returns the aggregated report;
a listUsers failure escapes the paging loop and is rethrown by the outer
catch (lines 125-128). -/
def forceLogoutAllUsers (env : Env) (excludedUserIds : List String)
    (immediateLogout : Bool) (pages : Pages) : Except String RunReport :=
  match collectUsers pages with
  | .error e => .error e
  | .ok users =>
    .ok (aggregate (runOutcomes env excludedUserIds immediateLogout users))

/-- Exit code of a standalone run (main at lines 221-229): 0 when
forceLogoutAllUsers resolves, 1 when it rejects. -/
def mainExitCode (env : Env) (excludedUserIds : List String)
    (immediateLogout : Bool) (pages : Pages) : Nat :=
  match forceLogoutAllUsers env excludedUserIds immediateLogout pages with
  | .ok _ => 0
  | .error _ => 1

/-- Worker-pool concurrency ceiling chosen at line 27:
5 in immediate (hard) mode, 10 otherwise. -/
def concurrency (immediateLogout : Bool) : Nat :=
  if immediateLogout then 5 else 10

/-- Modelled from the spec: state of the bounded worker pool (the p-limit
package is an external dependency, not part of this repository). Tasks are
pending in the FIFO queue, executing, or done. -/
structure PoolState where
  pending : Nat
  active : Nat
  done : Nat
deriving DecidableEq, Repr

/-- Modelled from the spec: one scheduler step of the bounded pool with
ceiling n — a pending task starts only while fewer than n are executing,
and an executing task may finish. -/
inductive PoolStep (n : Nat) : PoolState → PoolState → Prop
  | start (p a d : Nat) (h : a < n) : PoolStep n ⟨p + 1, a, d⟩ ⟨p, a + 1, d⟩
  | done (p a d : Nat) : PoolStep n ⟨p, a + 1, d⟩ ⟨p, a, d + 1⟩

/-- Reachability under pool scheduler steps. -/
def PoolReach (n : Nat) : PoolState → PoolState → Prop :=
  Relation.ReflTransGen (PoolStep n)

/-- Request data the endpoint looks at: the key query parameter and the
x-api-key header, each possibly absent. -/
structure HttpRequest where
  queryKey : Option String
  headerApiKey : Option String
deriving DecidableEq, Repr

/-- req.query.key or req.headers of x-api-key (server.js line 56): the
query value wins unless it is absent or the empty string (falsy). -/
def providedKey (req : HttpRequest) : Option String :=
  match req.queryKey with
  | some s => if s = "" then req.headerApiKey else some s
  | none => req.headerApiKey

/-- What the force-logout endpoint decides before any work happens. -/
inductive EndpointDecision where
  | forbidden
  | unauthorized
  | startRun
deriving DecidableEq, Repr

/-- The guard logic of app.post at server.js lines 45-60, with the two
module-level configuration constants passed in: 403 when the flag is off;
401 when the secret is not the default value and the provided key differs
from it; otherwise the logout run is started. -/
def forceLogoutEndpoint (logoutEnabled : Bool) (apiSecret : String)
    (req : HttpRequest) : EndpointDecision :=
  if ¬ logoutEnabled then .forbidden
  else if apiSecret ≠ "changeme" ∧ providedKey req ≠ some apiSecret then
    .unauthorized
  else .startRun

/-- HTTP status attached to a rejecting decision. -/
def responseStatus : EndpointDecision → Option Nat
  | .forbidden => some 403
  | .unauthorized => some 401
  | .startRun => none

/-! Concrete oracles, users and pages used to evaluate the embedding on
closed inputs. -/

/-- Oracle on which every remote call succeeds. -/
def envOk : Env := ⟨fun _ _ _ => .ok (), fun _ => .ok ()⟩

/-- Oracle on which updateUser always succeeds and revokeRefreshTokens
always throws. -/
def envRevokeFail : Env := ⟨fun _ _ _ => .ok (), fun _ => .error "revoke boom"⟩

/-- Oracle on which disable attempts always throw and revoke succeeds. -/
def envDisableFail : Env :=
  ⟨fun _ disabled _ => if disabled then .error "disable fail" else .ok (),
   fun _ => .ok ()⟩

/-- An ordinary enabled user. -/
def userA : UserRecord := ⟨"userA", some "a@example.com", false⟩

/-- A second ordinary enabled user. -/
def userB : UserRecord := ⟨"userB", some "b@example.com", false⟩

/-- A user whose id sits on the exclusion list in the closed runs below. -/
def userEx : UserRecord := ⟨"excluded1", none, false⟩

/-- Two pages: the excluded user then an ordinary user. -/
def pagesTwo : Pages := [.ok [userEx], .ok [userA]]

/-- Attempt oracle that fails twice and succeeds on the third attempt. -/
def opTwoFailures : Nat → Except String Unit :=
  fun i => if i < 2 then .error "quota exceeded" else .ok ()

/-! Helper lemmas about the aggregator and the paging loop. -/

lemma foldl_recordOutcome_total (os : List Outcome) (r : RunReport) :
    (os.foldl recordOutcome r).total = r.total + os.length := by
  induction os generalizing r with
  | nil => simp
  | cons o rest ih =>
    cases o <;> simp [recordOutcome, ih] <;> omega

lemma foldl_recordOutcome_counts (os : List Outcome) (r : RunReport) :
    (os.foldl recordOutcome r).success + (os.foldl recordOutcome r).failed +
      (os.foldl recordOutcome r).skipped =
      r.success + r.failed + r.skipped + os.length := by
  induction os generalizing r with
  | nil => simp
  | cons o rest ih =>
    cases o <;> simp [recordOutcome, ih] <;> omega

lemma aggregate_total (os : List Outcome) : (aggregate os).total = os.length := by
  simpa [aggregate] using foldl_recordOutcome_total os ⟨0, 0, 0, 0, []⟩

lemma aggregate_counts (os : List Outcome) :
    (aggregate os).success + (aggregate os).failed + (aggregate os).skipped =
      os.length := by
  simpa [aggregate] using foldl_recordOutcome_counts os ⟨0, 0, 0, 0, []⟩

lemma submittedUsers_of_collect (pages : Pages) (users : List UserRecord)
    (h : collectUsers pages = .ok users) : submittedUsers pages = users := by
  induction pages generalizing users with
  | nil =>
    simp [collectUsers] at h
    simp [submittedUsers, ← h]
  | cons p rest ih =>
    cases p with
    | error e => simp [collectUsers] at h
    | ok us =>
      rw [collectUsers] at h
      cases hc : collectUsers rest with
      | error e => rw [hc] at h; cases h
      | ok more =>
        rw [hc] at h
        cases h
        simp [submittedUsers, ih more hc]

lemma collectUsers_fatal (pre : List (List UserRecord)) (e : String)
    (post : Pages) :
    collectUsers (pre.map Except.ok ++ .error e :: post) = .error e := by
  induction pre with
  | nil => simp [collectUsers]
  | cons us rest ih => simp [collectUsers, ih]

lemma submittedUsers_fatal (pre : List (List UserRecord)) (e : String)
    (post : Pages) :
    submittedUsers (pre.map Except.ok ++ .error e :: post) = pre.flatten := by
  induction pre with
  | nil => simp [submittedUsers]
  | cons us rest ih => simp [submittedUsers, ih]

lemma poolStep_active_le {n : Nat} {s t : PoolState} (h : PoolStep n s t)
    (hs : s.active ≤ n) : t.active ≤ n := by
  cases h with
  | start p a d hlt => simpa using hlt
  | done p a d => simp at hs ⊢; omega

lemma poolReach_active_le {n : Nat} {s t : PoolState} (h : PoolReach n s t)
    (hs : s.active ≤ n) : t.active ≤ n := by
  induction h with
  | refl => exact hs
  | tail _ step ih => exact poolStep_active_le step ih

lemma poolReach_drain (n : Nat) (hn : 0 < n) (M : Nat) :
    ∀ d : Nat, PoolReach n ⟨M, 0, d⟩ ⟨0, 0, d + M⟩ := by
  induction M with
  | zero => intro d; exact Relation.ReflTransGen.refl
  | succ m ih =>
    intro d
    have s1 : PoolStep n ⟨m + 1, 0, d⟩ ⟨m, 1, d⟩ := PoolStep.start m 0 d hn
    have s2 : PoolStep n ⟨m, 1, d⟩ ⟨m, 0, d + 1⟩ := PoolStep.done m 0 d
    have tail : PoolReach n ⟨m, 0, d + 1⟩ ⟨0, 0, d + (m + 1)⟩ := by
      have h1 : d + 1 + m = d + (m + 1) := by omega
      have := ih (d + 1)
      rwa [h1] at this
    exact Relation.ReflTransGen.head s1 (Relation.ReflTransGen.head s2 tail)

/-! Claim theorems. -/

/-- Claim C2: whenever forceLogoutAllUsers returns a report, the report
satisfies total = success + failed + skipped, the total equals the number
of users returned across all fetched pages, and the report aggregates the
outcome list that holds exactly one outcome per user seen in a page. -/
theorem c2_report_invariant (env : Env) (ex : List String) (im : Bool)
    (pages : Pages) (r : RunReport)
    (h : forceLogoutAllUsers env ex im pages = .ok r) :
    r.total = r.success + r.failed + r.skipped ∧
    ∃ users, collectUsers pages = .ok users ∧
      r = aggregate (runOutcomes env ex im users) ∧
      (runOutcomes env ex im users).length = users.length ∧
      r.total = users.length := by
  unfold forceLogoutAllUsers at h
  cases hc : collectUsers pages with
  | error e => rw [hc] at h; cases h
  | ok users =>
    rw [hc] at h
    cases h
    refine ⟨?_, users, rfl, rfl, ?_, ?_⟩
    · rw [aggregate_total, ← aggregate_counts (runOutcomes env ex im users)]
    · simp [runOutcomes]
    · rw [aggregate_total]; simp [runOutcomes]

/-- Claim C2 witness: the invariant instantiated on a concrete two-page
run with one excluded and one ordinary user. -/
theorem c2_report_invariant_witness :
    (⟨1, 0, 1, 2, []⟩ : RunReport).total =
        (⟨1, 0, 1, 2, []⟩ : RunReport).success +
        (⟨1, 0, 1, 2, []⟩ : RunReport).failed +
        (⟨1, 0, 1, 2, []⟩ : RunReport).skipped ∧
    ∃ users, collectUsers pagesTwo = .ok users ∧
      (⟨1, 0, 1, 2, []⟩ : RunReport) =
        aggregate (runOutcomes envOk ["excluded1"] false users) ∧
      (runOutcomes envOk ["excluded1"] false users).length = users.length ∧
      (⟨1, 0, 1, 2, []⟩ : RunReport).total = users.length :=
  c2_report_invariant envOk ["excluded1"] false pagesTwo ⟨1, 0, 1, 2, []⟩ rfl

/-- Claim C5: robustUpdateUser with 3 attempts makes at most 3 attempts,
stops on the first success, sleeps 500 * 2 ^ i ms after a failure of
non-final attempt i (500 then 1000), and after the third failed attempt
propagates the last error unchanged. -/
theorem c5_retry_wrapper (op : Nat → Except String Unit) :
    (robustUpdateUser op 3).attempts ≤ 3 ∧
    (op 0 = .ok () → robustUpdateUser op 3 = ⟨.ok (), 1, []⟩) ∧
    (∀ e0, op 0 = .error e0 → op 1 = .ok () →
      robustUpdateUser op 3 = ⟨.ok (), 2, [500]⟩) ∧
    (∀ e0 e1, op 0 = .error e0 → op 1 = .error e1 → op 2 = .ok () →
      robustUpdateUser op 3 = ⟨.ok (), 3, [500, 1000]⟩) ∧
    (∀ e0 e1 e2, op 0 = .error e0 → op 1 = .error e1 → op 2 = .error e2 →
      robustUpdateUser op 3 = ⟨.error e2, 3, [500, 1000]⟩) := by
  cases h0 : op 0 <;> cases h1 : op 1 <;> cases h2 : op 2 <;>
    simp [robustUpdateUser, robustUpdateUserAux, h0, h1, h2]

/-- Claim C5 witness: an operation failing twice then succeeding yields
success after 3 attempts with the two delays 500 and 1000. -/
theorem c5_retry_wrapper_witness :
    robustUpdateUser opTwoFailures 3 = ⟨.ok (), 3, [500, 1000]⟩ :=
  (c5_retry_wrapper opTwoFailures).2.2.2.1 "quota exceeded" "quota exceeded"
    rfl rfl rfl

/-- Claim C1: evaluation of the hard-mode task on a user whose disable call
succeeds and whose revoke call throws. The throw lands in the catch block
of forceLogoutUsers.js line 79, so setDisabled(id, false) is never called:
the outcome is Failed, no update(disabled := false) call appears in the
trace, and the account is left disabled at run end — contradicting the
spec, which requires the re-enable step to still be attempted. -/
theorem c1_revoke_failure_leaves_disabled :
    processUser envRevokeFail [] true userA =
      ⟨.failed "userA" (some "a@example.com") "revoke boom",
       [RemoteCall.update "userA" true, RemoteCall.revoke "userA"], true⟩ ∧
    RemoteCall.update "userA" false ∉
      (processUser envRevokeFail [] true userA).calls ∧
    (processUser envRevokeFail [] true userA).finalDisabled = true := by
  refine ⟨rfl, by decide, rfl⟩

/-- Claim C3 counterexample: the excluded user of the concrete two-page run
is nevertheless submitted to the worker pool — the map at
forceLogoutUsers.js line 44 wraps every user of the page in a pool task,
and the exclusion check runs inside that task, not in the paging loop. -/
theorem c3_excluded_user_submitted :
    userEx.uid ∈ (["excluded1"] : List String) ∧
    userEx ∈ submittedUsers pagesTwo := by
  decide

/-- Claim C3 (amended): an excluded user seen in a page gets outcome
Skipped and zero remote calls, but the user is submitted to the worker
pool like any other and the Skipped outcome is recorded inside the pool
task rather than synchronously by the paging loop. -/
theorem c3_excluded_skipped (env : Env) (ex : List String) (im : Bool)
    (u : UserRecord) (pages : Pages) (users : List UserRecord)
    (hu : u.uid ∈ ex) (hp : collectUsers pages = .ok users)
    (hm : u ∈ users) :
    (processUser env ex im u).outcome = .skipped u.uid ∧
    (processUser env ex im u).calls = [] ∧
    u ∈ submittedUsers pages := by
  refine ⟨?_, ?_, ?_⟩
  · simp [processUser, hu]
  · simp [processUser, hu]
  · rw [submittedUsers_of_collect pages users hp]; exact hm

/-- Claim C3 witness: the amended statement on the concrete two-page run. -/
theorem c3_excluded_skipped_witness :
    (processUser envOk ["excluded1"] false userEx).outcome =
      .skipped userEx.uid ∧
    (processUser envOk ["excluded1"] false userEx).calls = [] ∧
    userEx ∈ submittedUsers pagesTwo :=
  c3_excluded_skipped envOk ["excluded1"] false userEx pagesTwo
    [userEx, userA] (by decide) rfl (by decide)

/-- Claim C4: in hard mode, when the disable step exhausts all retry
attempts, the task reports Failed with the last disable error, never calls
revokeRefreshTokens or updateUser(disabled := false), and the account
keeps the disabled flag it started with. -/
theorem c4_disable_failure (env : Env) (ex : List String) (u : UserRecord)
    (e : String) (hne : u.uid ∉ ex)
    (hfail : (robustUpdateUser (env.update u.uid true) 3).result = .error e) :
    (processUser env ex true u).outcome = .failed u.uid u.email e ∧
    RemoteCall.revoke u.uid ∉ (processUser env ex true u).calls ∧
    RemoteCall.update u.uid false ∉ (processUser env ex true u).calls ∧
    (processUser env ex true u).finalDisabled = u.disabled := by
  have hp : processUser env ex true u =
      ⟨.failed u.uid u.email e,
        List.replicate (robustUpdateUser (env.update u.uid true) 3).attempts
          (RemoteCall.update u.uid true), u.disabled⟩ := by
    simp only [processUser]
    rw [if_neg hne, if_pos trivial, hfail]
  rw [hp]
  refine ⟨rfl, ?_, ?_, rfl⟩
  · simp [List.mem_replicate]
  · simp [List.mem_replicate]

/-- Claim C4 witness: the statement evaluated on an oracle whose disable
attempts always throw. -/
theorem c4_disable_failure_witness :
    (processUser envDisableFail [] true userA).outcome =
      .failed userA.uid userA.email "disable fail" ∧
    RemoteCall.revoke userA.uid ∉
      (processUser envDisableFail [] true userA).calls ∧
    RemoteCall.update userA.uid false ∉
      (processUser envDisableFail [] true userA).calls ∧
    (processUser envDisableFail [] true userA).finalDisabled =
      userA.disabled :=
  c4_disable_failure envDisableFail [] userA "disable fail" (by simp) rfl

/-- Claim C6: in soft mode a non-excluded user gets exactly one
revokeRefreshTokens call and no updateUser call, and when that revoke call
throws, the single recorded outcome is Failed with the captured error
message and the user email. -/
theorem c6_soft_mode (env : Env) (ex : List String) (u : UserRecord)
    (hne : u.uid ∉ ex) :
    (processUser env ex false u).calls = [RemoteCall.revoke u.uid] ∧
    (∀ b, RemoteCall.update u.uid b ∉ (processUser env ex false u).calls) ∧
    (∀ e, env.revoke u.uid = .error e →
      (processUser env ex false u).outcome = .failed u.uid u.email e) ∧
    (env.revoke u.uid = .ok () →
      (processUser env ex false u).outcome = .success u.uid) := by
  simp only [processUser, if_neg hne, Bool.false_eq_true, if_false]
  cases hr : env.revoke u.uid <;> simp_all

/-- Claim C6 witness: soft mode on an oracle whose revoke call throws. -/
theorem c6_soft_mode_witness :
    (processUser envRevokeFail [] false userB).calls =
      [RemoteCall.revoke "userB"] ∧
    (processUser envRevokeFail [] false userB).outcome =
      .failed "userB" (some "b@example.com") "revoke boom" := by
  have h := c6_soft_mode envRevokeFail [] userB (by simp)
  exact ⟨h.1, h.2.2.1 "revoke boom" rfl⟩

/-- Claim C7: the pool ceiling is 5 in hard mode and 10 in soft mode and
stays fixed for the run; with M submitted tasks, more than the ceiling,
every state reachable by the pool scheduler has at most that many tasks
executing, and a schedule exists that drains all M tasks to completion. -/
theorem c7_worker_pool (im : Bool) (M : Nat) (hM : concurrency im < M) :
    concurrency true = 5 ∧ concurrency false = 10 ∧
    (∀ s, PoolReach (concurrency im) ⟨M, 0, 0⟩ s →
      s.active ≤ concurrency im) ∧
    PoolReach (concurrency im) ⟨M, 0, 0⟩ ⟨0, 0, M⟩ := by
  have hn : 0 < concurrency im := by cases im <;> simp [concurrency]
  refine ⟨rfl, rfl, ?_, ?_⟩
  · intro s hs
    exact poolReach_active_le hs (by simp)
  · simpa using poolReach_drain (concurrency im) hn M 0

/-- Claim C7 witness: hard mode with 6 submitted tasks. -/
theorem c7_worker_pool_witness :
    concurrency true < 6 ∧
    (concurrency true = 5 ∧ concurrency false = 10 ∧
      (∀ s, PoolReach (concurrency true) ⟨6, 0, 0⟩ s →
        s.active ≤ concurrency true) ∧
      PoolReach (concurrency true) ⟨6, 0, 0⟩ ⟨0, 0, 6⟩) :=
  ⟨by decide, c7_worker_pool true 6 (by decide)⟩

/-- Claim C8 counterexample: with the enable flag on, the secret left at
its default value changeme and a mismatching key, the endpoint starts the
run instead of answering 401 — the key check at server.js line 57 is
guarded by the secret being different from changeme. -/
theorem c8_default_secret_bypasses_key_check :
    forceLogoutEndpoint true "changeme" ⟨some "wrongkey", none⟩ =
      .startRun ∧
    providedKey ⟨some "wrongkey", none⟩ ≠ some "changeme" := by
  decide

/-- Claim C8 (amended): with the flag off every request is answered 403
and no run starts; with the flag on, a 401 is returned and no run starts
when the configured secret differs from the default changeme and the
provided key mismatches it (at the default secret the key check is
skipped). -/
theorem c8_endpoint_gating (secret : String) (req : HttpRequest)
    (hs : secret ≠ "changeme") (hk : providedKey req ≠ some secret) :
    (∀ (s : String) (r : HttpRequest),
      forceLogoutEndpoint false s r = .forbidden ∧
      responseStatus (forceLogoutEndpoint false s r) = some 403) ∧
    forceLogoutEndpoint true secret req = .unauthorized ∧
    responseStatus (forceLogoutEndpoint true secret req) = some 401 := by
  refine ⟨?_, ?_, ?_⟩
  · intro s r
    constructor <;> simp [forceLogoutEndpoint, responseStatus]
  · simp [forceLogoutEndpoint, hs, hk]
  · simp [forceLogoutEndpoint, responseStatus, hs, hk]

/-- Claim C8 witness: a non-default secret with a mismatching query key. -/
theorem c8_endpoint_gating_witness :
    (∀ (s : String) (r : HttpRequest),
      forceLogoutEndpoint false s r = .forbidden ∧
      responseStatus (forceLogoutEndpoint false s r) = some 403) ∧
    forceLogoutEndpoint true "s3cret" ⟨some "wrongkey", none⟩ =
      .unauthorized ∧
    responseStatus
        (forceLogoutEndpoint true "s3cret" ⟨some "wrongkey", none⟩) =
      some 401 :=
  c8_endpoint_gating "s3cret" ⟨some "wrongkey", none⟩ (by decide) (by decide)

/-- Claim C9: a failing listUsers fetch makes forceLogoutAllUsers rethrow
that error, so no report is returned, only users of pages fetched before
the failure were ever submitted, and the standalone run exits nonzero. -/
theorem c9_fatal_paging (env : Env) (ex : List String) (im : Bool)
    (pre : List (List UserRecord)) (e : String) (post : Pages) :
    forceLogoutAllUsers env ex im (pre.map Except.ok ++ .error e :: post) =
      .error e ∧
    (∀ r, forceLogoutAllUsers env ex im
        (pre.map Except.ok ++ .error e :: post) ≠ .ok r) ∧
    submittedUsers (pre.map Except.ok ++ .error e :: post) = pre.flatten ∧
    mainExitCode env ex im (pre.map Except.ok ++ .error e :: post) = 1 := by
  have h1 : forceLogoutAllUsers env ex im
      (pre.map Except.ok ++ .error e :: post) = .error e := by
    unfold forceLogoutAllUsers
    rw [collectUsers_fatal pre e post]
  refine ⟨h1, ?_, submittedUsers_fatal pre e post, ?_⟩
  · intro r hr
    rw [h1] at hr
    cases hr
  · unfold mainExitCode
    rw [h1]

/-- Claim C10: with the enable flag on, the endpoint answers 401 exactly
when the configured secret differs from the default changeme and the
provided key mismatches it; at the default secret every request starts
the run regardless of the key. -/
theorem c10_unauthorized_iff (secret : String) (req : HttpRequest) :
    (forceLogoutEndpoint true secret req = .unauthorized ↔
      secret ≠ "changeme" ∧ providedKey req ≠ some secret) ∧
    forceLogoutEndpoint true "changeme" req = .startRun := by
  refine ⟨?_, by simp [forceLogoutEndpoint]⟩
  by_cases h1 : secret = "changeme"
  · subst h1
    simp [forceLogoutEndpoint]
  · by_cases h2 : providedKey req = some secret
    · simp [forceLogoutEndpoint, h1, h2]
    · simp [forceLogoutEndpoint, h1, h2]

/-- Claim C9 witness: one good page followed by a failing fetch. -/
theorem c9_fatal_paging_witness :
    forceLogoutAllUsers envOk [] false
        ([[userA]].map Except.ok ++ .error "network down" :: []) =
      .error "network down" ∧
    (∀ r, forceLogoutAllUsers envOk [] false
        ([[userA]].map Except.ok ++ .error "network down" :: []) ≠ .ok r) ∧
    submittedUsers ([[userA]].map Except.ok ++ .error "network down" :: []) =
      [[userA]].flatten ∧
    mainExitCode envOk [] false
        ([[userA]].map Except.ok ++ .error "network down" :: []) = 1 :=
  c9_fatal_paging envOk [] false [[userA]] "network down" []

/-- Claim C10 witness: a non-default secret with a mismatching header key,
and the default secret letting the same request through. -/
theorem c10_unauthorized_iff_witness :
    (forceLogoutEndpoint true "s3cret" ⟨none, some "badkey"⟩ =
        .unauthorized ↔
      "s3cret" ≠ "changeme" ∧
        providedKey ⟨none, some "badkey"⟩ ≠ some "s3cret") ∧
    forceLogoutEndpoint true "changeme" ⟨none, some "badkey"⟩ =
      .startRun :=
  c10_unauthorized_iff "s3cret" ⟨none, some "badkey"⟩

end FirebaseLogout
